import Mathlib

/-!
Shallow embedding of the `edgexr/dnsproviders` repository (Go): a uniform
`Provider` interface over three DNS backends (Cloudflare, Google Cloud DNS,
Open Telekom Cloud).  Each adapter's operations are embedded as pure
functions over an explicit vendor backend state; every vendor API call the
adapter issues is recorded in a trace, so statements such as "no vendor
mutation is performed" or "the operation fails before any record-level
vendor call" become statements about the trace.  Vendor calls themselves are
modelled on their success path (network/auth failures are external
nondeterminism the adapter merely propagates); the adapters' own control
flow, string handling and error construction are translated faithfully from
the source.
-/

set_option linter.unusedVariables false
set_option linter.unnecessarySeqFocus false

namespace DnsProviders

/-- Go `strings.HasPrefix`, on the character list of a string. -/
def hasPrefixStr (s p : String) : Bool := p.data.isPrefixOf s.data

/-- Go `strings.HasSuffix`. -/
def hasSuffixStr (s p : String) : Bool := p.data.reverse.isPrefixOf s.data.reverse

/-- Go `strings.TrimSuffix`: removes one trailing occurrence of `suf`, if present. -/
def trimSuffixStr (s suf : String) : String :=
  if hasSuffixStr s suf then String.mk (s.data.take (s.data.length - suf.data.length)) else s

/-- Substring test (used to model the OTC record-set list name filter, which
the vendor documents as fuzzy/substring matching). -/
def containsStr (s sub : String) : Bool :=
  (List.range (s.data.length + 1)).any (fun i => sub.data.isPrefixOf (s.data.drop i))

/-- Drop leading quotation-mark characters. -/
def dropQ (l : List Char) : List Char := l.dropWhile (fun c => c == '"')

/-- Go `strings.Trim(s, "\"")`: strips all leading and trailing quotation marks. -/
def trimQuotes (s : String) : String := String.mk ((dropQ (dropQ s.data).reverse).reverse)

/-- Go `strings.ToLower` (ASCII range, which is the domain used here). -/
def toLowerStr (s : String) : String := String.mk (s.data.map Char.toLower)

/-- Go `strings.ToUpper` (ASCII range). -/
def toUpperStr (s : String) : String := String.mk (s.data.map Char.toUpper)

/-- `api.Record`, the shared record shape (`Type`, `Name`, `Content`, `TTL`). -/
structure Record where
  rtype : String
  name : String
  content : List String
  ttl : Int
deriving DecidableEq, Repr

/-- Association-list lookup, modelling a Go `map[string]string` read. -/
def lookupA (k : String) (m : List (String × String)) : Option String :=
  (m.find? (fun p => p.1 == k)).map (fun p => p.2)

/-- Association-list insert with overwrite, modelling a Go map write. -/
def mapInsert (m : List (String × String)) (k v : String) : List (String × String) :=
  m.filter (fun p => p.1 != k) ++ [(k, v)]

/-! ### Google Cloud DNS adapter (`googleclouddns.go`) -/

/-- A `dns.ResourceRecordSet` (`Name`, `Type`, `Rrdatas`, `Ttl`). -/
structure RRSet where
  name : String
  rtype : String
  rrdatas : List String
  ttl : Int
deriving DecidableEq, Repr

/-- The vendor-side state: record sets per managed zone (internal name). -/
structure GcpBackend where
  rrsets : List (String × List RRSet)
deriving DecidableEq, Repr

/-- The adapter state `CloudDNS`: project plus the construction-time
zone-name-to-internal-name cache. -/
structure CloudDNS where
  project : String
  zoneToName : List (String × String)
deriving DecidableEq, Repr

/-- Vendor API calls the Google adapter can issue. -/
inductive GcpCall where
  | listManagedZones
  | listRRSets (mz : String)
  | patch (mz name rtype : String) (rrset : RRSet)
  | changeCreate (mz : String) (additions deletions : List RRSet)
deriving DecidableEq, Repr

/-- Record-level vendor calls (everything except the managed-zone listing). -/
def GcpCall.isRecordLevel : GcpCall → Bool
  | .listManagedZones => false
  | _ => true

/-- A vendor mutation (patch or change submission). -/
def GcpCall.isMutation : GcpCall → Bool
  | .patch _ _ _ _ => true
  | .changeCreate _ _ _ => true
  | _ => false

def lookupRRSets (b : GcpBackend) (mz : String) : List RRSet :=
  ((b.rrsets.find? (fun p => p.1 == mz)).map (fun p => p.2)).getD []

def setRRSets (b : GcpBackend) (mz : String) (sets : List RRSet) : GcpBackend :=
  ⟨b.rrsets.filter (fun p => p.1 != mz) ++ [(mz, sets)]⟩

/-- `CloudDNS.setManagedZones`: builds the zone cache from the vendor's
managed-zone list (pairs of `DnsName`, internal `Name`), stripping the
trailing dot from each DNS name, later entries overwriting earlier ones. -/
def setManagedZones (mzones : List (String × String)) : List (String × String) :=
  mzones.foldl (fun acc mz => mapInsert acc (trimSuffixStr mz.1 ".") mz.2) []

/-- `NewGoogleCloudDNSProvider` (success path): constructs the adapter and
populates the zone cache once from the vendor's managed-zone listing. -/
def NewGoogleCloudDNSProvider (project : String) (mzones : List (String × String)) : CloudDNS :=
  ⟨project, setManagedZones mzones⟩

/-- Result of a Google adapter operation: return value, the adapter state as
the method leaves it, the vendor backend state, and the calls issued. -/
structure GcpResult (α : Type) where
  ret : Except String α
  adapter : CloudDNS
  backend : GcpBackend
  trace : List GcpCall
deriving Repr

def isOkE {ε α : Type} : Except ε α → Bool
  | .ok _ => true
  | .error _ => false

/-- `CloudDNS.GetDNSRecords`. -/
def CloudDNS.GetDNSRecords (s : CloudDNS) (b : GcpBackend) (zone name : String) :
    GcpResult (List Record) :=
  match lookupA zone s.zoneToName with
  | none => ⟨.error ("no managed zone found for " ++ zone), s, b, []⟩
  | some mz =>
    let sets := lookupRRSets b mz
    let records := sets.filterMap (fun rrset =>
      let rrsetName := trimSuffixStr rrset.name "."
      if name != "" && name != rrsetName then none
      else some (Record.mk rrset.rtype rrsetName rrset.rrdatas rrset.ttl))
    ⟨.ok records, s, b, [.listRRSets mz]⟩

/-- The `noUpdateNeeded` flag computed (and only logged, never acted on) by
`CloudDNS.CreateOrUpdateDNSRecord`. -/
def noUpdateNeededFlag (rrset : RRSet) (content : String) (ttl : Int) : Bool :=
  rrset.rrdatas.length > 0 && content == rrset.rrdatas.headD "" && ttl == rrset.ttl

/-- `CloudDNS.changeDNSRecords`: submits a batch change (additions applied,
deletions removed on exact match). -/
def CloudDNS.changeDNSRecords (s : CloudDNS) (b : GcpBackend) (zone : String)
    (additions deletions : List RRSet) : GcpResult Unit :=
  match lookupA zone s.zoneToName with
  | none => ⟨.error ("no managed zone found for " ++ zone), s, b, []⟩
  | some mz =>
    let sets := lookupRRSets b mz
    let sets := (sets.filter (fun r => !(deletions.contains r))) ++ additions
    ⟨.ok (), s, setRRSets b mz sets, [.changeCreate mz additions deletions]⟩

/-- `CloudDNS.CreateOrUpdateDNSRecord`.  Note (faithful to the source): when
an exact content/ttl match exists, `noUpdateNeeded` is set and logged, but
the function still issues the Patch call. -/
def CloudDNS.CreateOrUpdateDNSRecord (s : CloudDNS) (b : GcpBackend)
    (zone name rtype content : String) (ttl : Int) (proxy : Bool) : GcpResult Unit :=
  let name := if hasSuffixStr name "." then name else name ++ "."
  match lookupA zone s.zoneToName with
  | none => ⟨.error ("no managed zone found for " ++ zone), s, b, []⟩
  | some mz =>
    let sets := lookupRRSets b mz
    match sets.find? (fun r => name == r.name && rtype == r.rtype) with
    | some ex =>
      let newSet : RRSet := ⟨ex.name, ex.rtype, [content], ttl⟩
      let sets := sets.map (fun r => if r.name == name && r.rtype == rtype then newSet else r)
      ⟨.ok (), s, setRRSets b mz sets, [.listRRSets mz, .patch mz name rtype newSet]⟩
    | none =>
      let newSet : RRSet := ⟨name, rtype, [content], ttl⟩
      let res := s.changeDNSRecords b zone [newSet] []
      let ret : Except String Unit := match res.ret with
        | .ok _ => .ok ()
        | .error e => .error ("failed to create dns entry for " ++ name ++ ", " ++ e)
      ⟨ret, s, res.backend, [.listRRSets mz] ++ res.trace⟩

/-- `CloudDNS.DeleteDNSRecord`. -/
def CloudDNS.DeleteDNSRecord (s : CloudDNS) (b : GcpBackend) (zone name : String) :
    GcpResult Unit :=
  match lookupA zone s.zoneToName with
  | none => ⟨.error ("no managed zone found for " ++ zone), s, b, []⟩
  | some mz =>
    if name == "" then ⟨.error "no name specified to delete", s, b, []⟩
    else
      let name := if hasSuffixStr name "." then name else name ++ "."
      let sets := lookupRRSets b mz
      let deletions := sets.filter (fun r => !(name != "" && name != r.name))
      let res := s.changeDNSRecords b zone [] deletions
      let ret : Except String Unit := match res.ret with
        | .ok _ => .ok ()
        | .error e => .error ("failed to delete dns entries for " ++ name ++ ", " ++ e)
      ⟨ret, s, res.backend, [.listRRSets mz] ++ res.trace⟩

/-! ### Cloudflare adapter (`cloudflare.go`) -/

/-- A `cloudflare.DNSRecord` as stored by the vendor. -/
structure CFRecord where
  id : String
  name : String
  rtype : String
  content : String
  ttl : Int
  proxied : Bool
deriving DecidableEq, Repr

/-- Cloudflare vendor state: zone-name-to-ID table and records per zone ID. -/
structure CFBackend where
  zones : List (String × String)
  records : List (String × List CFRecord)
deriving DecidableEq, Repr

/-- The filter fields of the `cloudflare.DNSRecord` passed to `DNSRecords`:
a zero ("") field means no filter on that field. -/
structure CFQuery where
  name : String
  rtype : String
deriving DecidableEq, Repr

/-- Vendor API calls the Cloudflare adapter can issue. -/
inductive CFCall where
  | zoneIDByName (zone : String)
  | listRecords (zoneID : String) (q : CFQuery)
  | update (zoneID recID : String) (r : CFRecord)
  | create (zoneID : String) (r : CFRecord)
  | delete (zoneID recID : String)
deriving DecidableEq, Repr

/-- Record-level vendor calls (everything except the zone-ID lookup). -/
def CFCall.isRecordLevel : CFCall → Bool
  | .zoneIDByName _ => false
  | _ => true

/-- A vendor mutation (update, create or delete). -/
def CFCall.isMutation : CFCall → Bool
  | .update _ _ _ => true
  | .create _ _ => true
  | .delete _ _ => true
  | _ => false

def cfZoneRecords (b : CFBackend) (zoneID : String) : List CFRecord :=
  ((b.records.find? (fun p => p.1 == zoneID)).map (fun p => p.2)).getD []

def cfSetRecords (b : CFBackend) (zoneID : String) (recs : List CFRecord) : CFBackend :=
  ⟨b.zones, b.records.filter (fun p => p.1 != zoneID) ++ [(zoneID, recs)]⟩

/-- The vendor's `DNSRecords(zoneID, query)` listing: exact match on each
non-empty query field. -/
def cfList (b : CFBackend) (zoneID : String) (q : CFQuery) : List CFRecord :=
  (cfZoneRecords b zoneID).filter (fun r =>
    (q.name == "" || r.name == q.name) && (q.rtype == "" || r.rtype == q.rtype))

/-- Vendor `UpdateDNSRecord(zoneID, recID, rr)`: overwrites the fields of the
record with that ID (the stored ID is kept). -/
def cfUpdate (b : CFBackend) (zoneID recID : String) (new : CFRecord) : CFBackend :=
  cfSetRecords b zoneID ((cfZoneRecords b zoneID).map
    (fun r => if r.id == recID then ⟨r.id, new.name, new.rtype, new.content, new.ttl, new.proxied⟩ else r))

/-- Vendor `CreateDNSRecord(zoneID, rr)`: appends the record (the
vendor-assigned ID is not modelled; the record is stored as passed). -/
def cfCreate (b : CFBackend) (zoneID : String) (new : CFRecord) : CFBackend :=
  cfSetRecords b zoneID (cfZoneRecords b zoneID ++ [new])

/-- Vendor `DeleteDNSRecord(zoneID, recID)`: removes the record with that ID. -/
def cfDelete (b : CFBackend) (zoneID recID : String) : CFBackend :=
  cfSetRecords b zoneID ((cfZoneRecords b zoneID).filter (fun r => r.id != recID))

/-- Result of a Cloudflare adapter operation. -/
structure CFResult (α : Type) where
  ret : Except String α
  backend : CFBackend
  trace : List CFCall
deriving Repr

/-- `CloudflareAPI.GetDNSRecords`.  The Go code sets `queryRecord.Name` only
when `name` is non-empty; since an empty query field means "no filter",
setting it unconditionally is equivalent. -/
def CloudflareAPI.GetDNSRecords (b : CFBackend) (zone name : String) :
    CFResult (List Record) :=
  match lookupA zone b.zones with
  | none => ⟨.error ("zone could not be found: " ++ zone), b, [.zoneIDByName zone]⟩
  | some zoneID =>
    let q : CFQuery := ⟨name, ""⟩
    let recs := cfList b zoneID q
    ⟨.ok (recs.map (fun r => Record.mk r.rtype r.name [r.content] r.ttl)), b,
      [.zoneIDByName zone, .listRecords zoneID q]⟩

/-- `CloudflareAPI.CreateOrUpdateDNSRecord`: lists by lowercased name and
uppercased type; every listed record whose content differs is updated
(content matches are logged no-ops); if nothing was listed, a record is
created with `Proxied: false`. -/
def CloudflareAPI.CreateOrUpdateDNSRecord (b : CFBackend)
    (zone name rtype content : String) (ttl : Int) (proxy : Bool) : CFResult Unit :=
  match lookupA zone b.zones with
  | none => ⟨.error ("zone could not be found: " ++ zone), b, [.zoneIDByName zone]⟩
  | some zoneID =>
    let q : CFQuery := ⟨toLowerStr name, toUpperStr rtype⟩
    let recs := cfList b zoneID q
    let updRec : CFRecord := ⟨"", toLowerStr name, toUpperStr rtype, content, ttl, proxy⟩
    let toUpdate := recs.filter (fun r => r.content != content)
    let b' := toUpdate.foldl (fun acc r => cfUpdate acc zoneID r.id updRec) b
    let updCalls := toUpdate.map (fun r => CFCall.update zoneID r.id updRec)
    if recs.isEmpty then
      let addRec : CFRecord := ⟨"", toLowerStr name, toUpperStr rtype, content, ttl, false⟩
      ⟨.ok (), cfCreate b zoneID addRec,
        [.zoneIDByName zone, .listRecords zoneID q, .create zoneID addRec]⟩
    else
      ⟨.ok (), b', [.zoneIDByName zone, .listRecords zoneID q] ++ updCalls⟩

/-- `CloudflareAPI.DeleteDNSRecord`: lists by name (empty name means no
filter) and issues one delete call per listed record. -/
def CloudflareAPI.DeleteDNSRecord (b : CFBackend) (zone name : String) : CFResult Unit :=
  match lookupA zone b.zones with
  | none => ⟨.error ("zone could not be found: " ++ zone), b, [.zoneIDByName zone]⟩
  | some zoneID =>
    let q : CFQuery := ⟨name, ""⟩
    let recs := cfList b zoneID q
    let b' := recs.foldl (fun acc r => cfDelete acc zoneID r.id) b
    ⟨.ok (), b', [.zoneIDByName zone, .listRecords zoneID q]
      ++ recs.map (fun r => CFCall.delete zoneID r.id)⟩

/-! ### Open Telekom Cloud adapter (`otc.go`) -/

/-- The OTC adapter's sentinel errors. -/
def errZoneNotFound : String := "could not find zone by the given name"

def errRecordNotFound : String := "could not find record by the given name"

/-- The explicit ambiguous-match error message built by the OTC adapter. -/
def ambiguousMsg (name zone : String) : String :=
  "found more than one matching DNS record with name " ++ name ++ " in zone " ++ zone

/-- A `zones.Zone` (only the fields the adapter reads). -/
structure OtcZone where
  id : String
  name : String
deriving DecidableEq, Repr

/-- A `recordsets.RecordSet`. -/
structure OtcRecordSet where
  id : String
  name : String
  rtype : String
  records : List String
  ttl : Int
deriving DecidableEq, Repr

/-- OTC vendor state: the zone list and record sets per zone ID. -/
structure OtcBackend where
  zones : List OtcZone
  recordSets : List (String × List OtcRecordSet)
deriving DecidableEq, Repr

/-- Vendor API calls the OTC adapter can issue. -/
inductive OtcCall where
  | listZones (nameFilter : String)
  | listRecordSets (zoneID nameFilter : String)
  | create (zoneID : String) (rs : OtcRecordSet)
  | update (zoneID recordID : String) (ttl : Int) (records : List String)
  | delete (zoneID recordID : String)
deriving DecidableEq, Repr

/-- Record-level vendor calls (everything except the zone listing). -/
def OtcCall.isRecordLevel : OtcCall → Bool
  | .listZones _ => false
  | _ => true

/-- A vendor mutation (create, update or delete). -/
def OtcCall.isMutation : OtcCall → Bool
  | .create _ _ => true
  | .update _ _ _ _ => true
  | .delete _ _ => true
  | _ => false

/-- `OTC.findZoneByName`: lists zones and returns the first whose name
matches exactly, else the zone-not-found sentinel.  (The vendor-side name
filter only narrows the listing; the adapter's own exact-match filter makes
this equivalent to searching the full zone list.) -/
def OTC.findZoneByName (b : OtcBackend) (name : String) : Option OtcZone :=
  b.zones.find? (fun z => z.name == name)

def otcZoneSets (b : OtcBackend) (zoneID : String) : List OtcRecordSet :=
  ((b.recordSets.find? (fun p => p.1 == zoneID)).map (fun p => p.2)).getD []

def otcSetSets (b : OtcBackend) (zoneID : String) (sets : List OtcRecordSet) : OtcBackend :=
  ⟨b.zones, b.recordSets.filter (fun p => p.1 != zoneID) ++ [(zoneID, sets)]⟩

/-- `OTC.listRecordSets`: vendor listing by zone with a (fuzzy/substring)
name filter, then every record value is stripped of surrounding quotes with
`strings.Trim(value, "\"")`. -/
def OTC.listRecordSets (b : OtcBackend) (zoneID name : String) : List OtcRecordSet :=
  let sets := otcZoneSets b zoneID
  let sets := if name == "" then sets else sets.filter (fun rs => containsStr rs.name name)
  sets.map (fun rs => ⟨rs.id, rs.name, rs.rtype, rs.records.map trimQuotes, rs.ttl⟩)

/-- The quote-wrapping applied by the OTC adapter before sending content:
wraps if the content neither starts nor ends with a quotation mark. -/
def otcWrap (content : String) : String :=
  if !(hasPrefixStr content "\"") && !(hasSuffixStr content "\"") then
    "\"" ++ content ++ "\""
  else content

/-- Result of an OTC adapter operation. -/
structure OtcResult (α : Type) where
  ret : Except String α
  backend : OtcBackend
  trace : List OtcCall
deriving Repr

/-- `OTC.GetDNSRecords`: lists record sets for the zone and keeps those whose
stored name equals `name ++ "." ++ zone` (or all, when `name` is empty); the
returned `api.Record` carries the `name` argument, not the stored FQDN. -/
def OTC.GetDNSRecords (b : OtcBackend) (zone name : String) : OtcResult (List Record) :=
  match OTC.findZoneByName b zone with
  | none => ⟨.error errZoneNotFound, b, [.listZones zone]⟩
  | some z =>
    let sets := OTC.listRecordSets b z.id name
    let fqdn := name ++ "." ++ zone
    let records := sets.filterMap (fun rec =>
      if name == "" || rec.name == fqdn then
        some (Record.mk rec.rtype name rec.records rec.ttl)
      else none)
    ⟨.ok records, b, [.listZones zone, .listRecordSets z.id name]⟩

/-- `OTC.createDNSRecord`: wraps the content and issues a create call for the
given FQDN (the vendor-assigned record-set ID is modelled as a fixed fresh
ID). -/
def OTC.createDNSRecord (b : OtcBackend) (zoneID fqdn rtype content : String)
    (ttl : Int) : OtcResult Unit :=
  let newSet : OtcRecordSet := ⟨"created-id", fqdn, rtype, [otcWrap content], ttl⟩
  ⟨.ok (), otcSetSets b zoneID (otcZoneSets b zoneID ++ [newSet]), [.create zoneID newSet]⟩

/-- `OTC.CreateOrUpdateDNSRecord`: zero matches create, exactly one match is
updated in place (TTL and wrapped content only — name and type are not
touched), more than one match is the explicit ambiguous-match error. -/
def OTC.CreateOrUpdateDNSRecord (b : OtcBackend)
    (zone name rtype content : String) (ttl : Int) (proxy : Bool) : OtcResult Unit :=
  match OTC.findZoneByName b zone with
  | none => ⟨.error errZoneNotFound, b, [.listZones zone]⟩
  | some z =>
    let records := OTC.listRecordSets b z.id name
    match records with
    | [] =>
      let res := OTC.createDNSRecord b z.id (name ++ "." ++ zone) rtype content ttl
      ⟨res.ret, res.backend, [.listZones zone, .listRecordSets z.id name] ++ res.trace⟩
    | [r] =>
      let content := otcWrap content
      let sets := (otcZoneSets b z.id).map (fun rs =>
        if rs.id == r.id then ⟨rs.id, rs.name, rs.rtype, [content], ttl⟩ else rs)
      ⟨.ok (), otcSetSets b z.id sets,
        [.listZones zone, .listRecordSets z.id name, .update z.id r.id ttl [content]]⟩
    | _ :: _ :: _ =>
      ⟨.error (ambiguousMsg name zone), b, [.listZones zone, .listRecordSets z.id name]⟩

/-- `OTC.DeleteDNSRecord`: zero matches is the record-not-found sentinel,
more than one the ambiguous-match error, exactly one is deleted. -/
def OTC.DeleteDNSRecord (b : OtcBackend) (zone name : String) : OtcResult Unit :=
  match OTC.findZoneByName b zone with
  | none => ⟨.error errZoneNotFound, b, [.listZones zone]⟩
  | some z =>
    let records := OTC.listRecordSets b z.id name
    match records with
    | [] => ⟨.error errRecordNotFound, b, [.listZones zone, .listRecordSets z.id name]⟩
    | [r] =>
      let sets := (otcZoneSets b z.id).filter (fun rs => rs.id != r.id)
      ⟨.ok (), otcSetSets b z.id sets,
        [.listZones zone, .listRecordSets z.id name, .delete z.id r.id]⟩
    | _ :: _ :: _ =>
      ⟨.error (ambiguousMsg name zone), b, [.listZones zone, .listRecordSets z.id name]⟩

/-! ### Claim theorems -/

instance {ε α : Type} [DecidableEq ε] [DecidableEq α] : DecidableEq (Except ε α) := fun x y =>
  match x, y with
  | .error a, .error b =>
    if h : a = b then .isTrue (by rw [h]) else .isFalse (fun he => h (by cases he; rfl))
  | .error _, .ok _ => .isFalse (fun he => Except.noConfusion he)
  | .ok _, .error _ => .isFalse (fun he => Except.noConfusion he)
  | .ok a, .ok b =>
    if h : a = b then .isTrue (by rw [h]) else .isFalse (fun he => h (by cases he; rfl))

/-- C2: on the OTC adapter, when more than one record set matches the given
name in the zone, both `CreateOrUpdateDNSRecord` and `DeleteDNSRecord`
return the explicit ambiguous-match error, leave the backend unchanged, and
issue no mutating vendor call. -/
theorem otc_ambiguous_match_refuses (b : OtcBackend) (z : OtcZone)
    (zone name rtype content : String) (ttl : Int) (proxy : Bool)
    (hz : OTC.findZoneByName b zone = some z)
    (hlen : 1 < (OTC.listRecordSets b z.id name).length) :
    (OTC.CreateOrUpdateDNSRecord b zone name rtype content ttl proxy).ret
        = .error (ambiguousMsg name zone)
      ∧ (OTC.CreateOrUpdateDNSRecord b zone name rtype content ttl proxy).backend = b
      ∧ (OTC.CreateOrUpdateDNSRecord b zone name rtype content ttl proxy).trace.all
          (fun c => !c.isMutation) = true
      ∧ (OTC.DeleteDNSRecord b zone name).ret = .error (ambiguousMsg name zone)
      ∧ (OTC.DeleteDNSRecord b zone name).backend = b
      ∧ (OTC.DeleteDNSRecord b zone name).trace.all (fun c => !c.isMutation) = true := by
  rcases hL : OTC.listRecordSets b z.id name with _ | ⟨r1, _ | ⟨r2, rest⟩⟩
  · rw [hL] at hlen; simp at hlen
  · rw [hL] at hlen; simp at hlen
  · refine ⟨?_, ?_, ?_, ?_, ?_, ?_⟩ <;>
      simp [OTC.CreateOrUpdateDNSRecord, OTC.DeleteDNSRecord, hz, hL, OtcCall.isMutation]

/-- C2 witness: a concrete zone with two record sets matching the name. -/
theorem otc_ambiguous_match_refuses_witness :
    OTC.findZoneByName ⟨[⟨"z1", "zone."⟩],
        [("z1", [⟨"r1", "a.zone.", "A", ["\"x\""], 300⟩,
                 ⟨"r2", "a.zone.", "AAAA", ["\"y\""], 300⟩])]⟩ "zone." = some ⟨"z1", "zone."⟩
      ∧ (OTC.CreateOrUpdateDNSRecord ⟨[⟨"z1", "zone."⟩],
          [("z1", [⟨"r1", "a.zone.", "A", ["\"x\""], 300⟩,
                   ⟨"r2", "a.zone.", "AAAA", ["\"y\""], 300⟩])]⟩ "zone." "a" "A" "c" 300 false).ret
          = .error (ambiguousMsg "a" "zone.") :=
  ⟨by decide, (otc_ambiguous_match_refuses _ ⟨"z1", "zone."⟩ "zone." "a" "A" "c" 300 false
    (by decide) (by decide)).1⟩

/-- C4: for every adapter and every operation, a zone absent from the
vendor's zone list (for Google: from the construction-time cache) yields a
zone-not-found error, an unchanged backend, and no record-level vendor
call. -/
theorem zone_not_found_fails_early
    (s : CloudDNS) (gb : GcpBackend) (cb : CFBackend) (ob : OtcBackend)
    (zone name rtype content : String) (ttl : Int) (proxy : Bool)
    (hg : lookupA zone s.zoneToName = none)
    (hc : lookupA zone cb.zones = none)
    (ho : OTC.findZoneByName ob zone = none) :
    ((CloudDNS.GetDNSRecords s gb zone name).ret
          = .error ("no managed zone found for " ++ zone)
        ∧ (CloudDNS.GetDNSRecords s gb zone name).trace.all (fun c => !c.isRecordLevel) = true
        ∧ (CloudDNS.CreateOrUpdateDNSRecord s gb zone name rtype content ttl proxy).ret
          = .error ("no managed zone found for " ++ zone)
        ∧ (CloudDNS.CreateOrUpdateDNSRecord s gb zone name rtype content ttl proxy).backend = gb
        ∧ (CloudDNS.CreateOrUpdateDNSRecord s gb zone name rtype content ttl proxy).trace.all
            (fun c => !c.isRecordLevel) = true
        ∧ (CloudDNS.DeleteDNSRecord s gb zone name).ret
          = .error ("no managed zone found for " ++ zone)
        ∧ (CloudDNS.DeleteDNSRecord s gb zone name).backend = gb
        ∧ (CloudDNS.DeleteDNSRecord s gb zone name).trace.all
            (fun c => !c.isRecordLevel) = true)
      ∧ ((CloudflareAPI.GetDNSRecords cb zone name).ret
          = .error ("zone could not be found: " ++ zone)
        ∧ (CloudflareAPI.GetDNSRecords cb zone name).trace.all
            (fun c => !c.isRecordLevel) = true
        ∧ (CloudflareAPI.CreateOrUpdateDNSRecord cb zone name rtype content ttl proxy).ret
          = .error ("zone could not be found: " ++ zone)
        ∧ (CloudflareAPI.CreateOrUpdateDNSRecord cb zone name rtype content ttl proxy).backend = cb
        ∧ (CloudflareAPI.CreateOrUpdateDNSRecord cb zone name rtype content ttl proxy).trace.all
            (fun c => !c.isRecordLevel) = true
        ∧ (CloudflareAPI.DeleteDNSRecord cb zone name).ret
          = .error ("zone could not be found: " ++ zone)
        ∧ (CloudflareAPI.DeleteDNSRecord cb zone name).backend = cb
        ∧ (CloudflareAPI.DeleteDNSRecord cb zone name).trace.all
            (fun c => !c.isRecordLevel) = true)
      ∧ ((OTC.GetDNSRecords ob zone name).ret = .error errZoneNotFound
        ∧ (OTC.GetDNSRecords ob zone name).trace.all (fun c => !c.isRecordLevel) = true
        ∧ (OTC.CreateOrUpdateDNSRecord ob zone name rtype content ttl proxy).ret
          = .error errZoneNotFound
        ∧ (OTC.CreateOrUpdateDNSRecord ob zone name rtype content ttl proxy).backend = ob
        ∧ (OTC.CreateOrUpdateDNSRecord ob zone name rtype content ttl proxy).trace.all
            (fun c => !c.isRecordLevel) = true
        ∧ (OTC.DeleteDNSRecord ob zone name).ret = .error errZoneNotFound
        ∧ (OTC.DeleteDNSRecord ob zone name).backend = ob
        ∧ (OTC.DeleteDNSRecord ob zone name).trace.all
            (fun c => !c.isRecordLevel) = true) := by
  refine ⟨⟨?_, ?_, ?_, ?_, ?_, ?_, ?_, ?_⟩, ⟨?_, ?_, ?_, ?_, ?_, ?_, ?_, ?_⟩,
    ⟨?_, ?_, ?_, ?_, ?_, ?_, ?_, ?_⟩⟩ <;>
    simp [CloudDNS.GetDNSRecords, CloudDNS.CreateOrUpdateDNSRecord, CloudDNS.DeleteDNSRecord,
      CloudflareAPI.GetDNSRecords, CloudflareAPI.CreateOrUpdateDNSRecord,
      CloudflareAPI.DeleteDNSRecord, OTC.GetDNSRecords, OTC.CreateOrUpdateDNSRecord,
      OTC.DeleteDNSRecord, hg, hc, ho, GcpCall.isRecordLevel, CFCall.isRecordLevel,
      OtcCall.isRecordLevel]

/-- C4 witness: empty backends, so the zone is absent everywhere. -/
theorem zone_not_found_fails_early_witness :
    lookupA "z" (CloudDNS.mk "p" []).zoneToName = none
      ∧ (CloudDNS.GetDNSRecords ⟨"p", []⟩ ⟨[]⟩ "z" "n").ret
        = .error ("no managed zone found for " ++ "z") :=
  ⟨by decide, ((zone_not_found_fails_early ⟨"p", []⟩ ⟨[]⟩ ⟨[], []⟩ ⟨[], []⟩
    "z" "n" "A" "c" 300 false (by decide) (by decide) (by decide)).1).1⟩

/-- The record sets the Google delete path matches: those whose stored name
equals the argument with a trailing dot appended if missing. -/
def gcpDeleteMatches (gb : GcpBackend) (mz name : String) : List RRSet :=
  let name := if hasSuffixStr name "." then name else name ++ "."
  (lookupRRSets gb mz).filter (fun r => !(name != "" && name != r.name))

/-- C3 counterexample: with the empty name and zero matching record sets,
the Google adapter's delete returns an error rather than succeeding. -/
theorem delete_zero_matches_google_empty_name_counterexample :
    lookupRRSets (⟨[("mz1", [])]⟩ : GcpBackend) "mz1" = []
      ∧ (CloudDNS.DeleteDNSRecord ⟨"p", [("example.com", "mz1")]⟩ ⟨[("mz1", [])]⟩
          "example.com" "").ret = .error "no name specified to delete"
      ∧ isOkE (CloudDNS.DeleteDNSRecord ⟨"p", [("example.com", "mz1")]⟩ ⟨[("mz1", [])]⟩
          "example.com" "").ret = false := by
  refine ⟨by decide, by decide, by decide⟩

/-- C3 (amended): with zero matching record sets, delete fails with the
record-not-found sentinel on OTC, succeeds with no delete call on
Cloudflare, and succeeds with an empty deletion change on Google for
nonempty names (an empty name makes Google fail before any vendor call). -/
theorem delete_zero_matches_behavior
    (s : CloudDNS) (gb : GcpBackend) (cb : CFBackend) (ob : OtcBackend)
    (zone name : String) :
    (∀ z : OtcZone, OTC.findZoneByName ob zone = some z →
        OTC.listRecordSets ob z.id name = [] →
        (OTC.DeleteDNSRecord ob zone name).ret = .error errRecordNotFound
        ∧ (OTC.DeleteDNSRecord ob zone name).backend = ob
        ∧ (OTC.DeleteDNSRecord ob zone name).trace.all (fun c => !c.isMutation) = true)
      ∧ (∀ zoneID, lookupA zone cb.zones = some zoneID →
        cfList cb zoneID ⟨name, ""⟩ = [] →
        (CloudflareAPI.DeleteDNSRecord cb zone name).ret = .ok ()
        ∧ (CloudflareAPI.DeleteDNSRecord cb zone name).backend = cb
        ∧ (CloudflareAPI.DeleteDNSRecord cb zone name).trace.all
            (fun c => !c.isMutation) = true)
      ∧ (∀ mz, lookupA zone s.zoneToName = some mz →
        name ≠ "" →
        gcpDeleteMatches gb mz name = [] →
        (CloudDNS.DeleteDNSRecord s gb zone name).ret = .ok ()
        ∧ (CloudDNS.DeleteDNSRecord s gb zone name).trace
            = [.listRRSets mz, .changeCreate mz [] []]) := by
  refine ⟨?_, ?_, ?_⟩
  · intro z hz hL
    refine ⟨?_, ?_, ?_⟩ <;> simp [OTC.DeleteDNSRecord, hz, hL, OtcCall.isMutation]
  · intro zoneID hc hL
    refine ⟨?_, ?_, ?_⟩ <;> simp [CloudflareAPI.DeleteDNSRecord, hc, hL, CFCall.isMutation]
  · intro mz hg hname hL
    have hname' : (name == "") = false := by
      cases h : name == "" with
      | true => exact absurd (by simpa using h) hname
      | false => rfl
    rw [gcpDeleteMatches, List.filter_eq_nil_iff] at hL
    simp only [Bool.not_eq_true', Bool.and_eq_false_imp] at hL
    constructor <;>
      simp only [CloudDNS.DeleteDNSRecord, CloudDNS.changeDNSRecords, hg, hname',
        List.filter_eq_nil_iff] <;>
      simp_all <;>
      exact fun a ha => (hL a ha).1

/-- C3 witness: an OTC zone with no record sets, a Cloudflare zone with no
records, and a Google zone with one record set not matching the name. -/
theorem delete_zero_matches_behavior_witness :
    OTC.listRecordSets ⟨[⟨"z1", "zone."⟩], [("z1", [])]⟩ "z1" "a" = []
      ∧ (OTC.DeleteDNSRecord ⟨[⟨"z1", "zone."⟩], [("z1", [])]⟩ "zone." "a").ret
        = .error errRecordNotFound
      ∧ (CloudflareAPI.DeleteDNSRecord ⟨[("zone", "zid")], [("zid", [])]⟩ "zone" "a").ret
        = .ok ()
      ∧ (CloudDNS.DeleteDNSRecord ⟨"p", [("zone", "mz")]⟩
          ⟨[("mz", [⟨"other.zone.", "A", ["1.2.3.4"], 60⟩])]⟩ "zone" "a.zone").ret = .ok () :=
  ⟨by decide,
    ((delete_zero_matches_behavior ⟨"p", [("zone", "mz")]⟩
        ⟨[("mz", [⟨"other.zone.", "A", ["1.2.3.4"], 60⟩])]⟩
        ⟨[("zone", "zid")], [("zid", [])]⟩ ⟨[⟨"z1", "zone."⟩], [("z1", [])]⟩
        "zone." "a").1 ⟨"z1", "zone."⟩ (by decide) (by decide)).1,
    ((delete_zero_matches_behavior ⟨"p", [("zone", "mz")]⟩
        ⟨[("mz", [⟨"other.zone.", "A", ["1.2.3.4"], 60⟩])]⟩
        ⟨[("zone", "zid")], [("zid", [])]⟩ ⟨[⟨"z1", "zone."⟩], [("z1", [])]⟩
        "zone" "a").2.1 "zid" (by decide) (by decide)).1,
    ((delete_zero_matches_behavior ⟨"p", [("zone", "mz")]⟩
        ⟨[("mz", [⟨"other.zone.", "A", ["1.2.3.4"], 60⟩])]⟩
        ⟨[("zone", "zid")], [("zid", [])]⟩ ⟨[⟨"z1", "zone."⟩], [("z1", [])]⟩
        "zone" "a.zone").2.2 "mz" (by decide) (by decide) (by decide)).1⟩

/-- C9: on the Cloudflare create path the created record always has
`Proxied: false` regardless of the `proxy` argument, and the `proxy`
argument only reaches update calls. -/
theorem cloudflare_create_ignores_proxy
    (cb : CFBackend) (zone name rtype content : String) (ttl : Int) (proxy : Bool) :
    (∀ zoneID, lookupA zone cb.zones = some zoneID →
        cfList cb zoneID ⟨toLowerStr name, toUpperStr rtype⟩ = [] →
        (CloudflareAPI.CreateOrUpdateDNSRecord cb zone name rtype content ttl proxy).trace
          = [.zoneIDByName zone, .listRecords zoneID ⟨toLowerStr name, toUpperStr rtype⟩,
             .create zoneID ⟨"", toLowerStr name, toUpperStr rtype, content, ttl, false⟩])
      ∧ (∀ c ∈ (CloudflareAPI.CreateOrUpdateDNSRecord cb zone name rtype content ttl proxy).trace,
          ∀ zid rec, c = CFCall.create zid rec → rec.proxied = false)
      ∧ (∀ c ∈ (CloudflareAPI.CreateOrUpdateDNSRecord cb zone name rtype content ttl proxy).trace,
          ∀ zid rid rec, c = CFCall.update zid rid rec → rec.proxied = proxy) := by
  refine ⟨?_, ?_, ?_⟩
  · intro zoneID hc hL
    simp [CloudflareAPI.CreateOrUpdateDNSRecord, hc, hL]
  · intro c hc' zid rec hcr
    subst hcr
    unfold CloudflareAPI.CreateOrUpdateDNSRecord at hc'
    split at hc'
    · simp at hc'
    · simp only [] at hc'
      split at hc' <;> simp_all
  · intro c hc' zid rid rec hcr
    subst hcr
    unfold CloudflareAPI.CreateOrUpdateDNSRecord at hc'
    split at hc'
    · simp at hc'
    · simp only [] at hc'
      split at hc' <;> simp_all <;>
        (obtain ⟨a, hab, hC, hD, hE⟩ := hc'; cases hE; rfl)

/-- C9 witness: create path on an empty zone, `proxy = true`, created record
not proxied. -/
theorem cloudflare_create_ignores_proxy_witness :
    lookupA "zone" (CFBackend.mk [("zone", "zid")] [("zid", [])]).zones = some "zid"
      ∧ (CloudflareAPI.CreateOrUpdateDNSRecord ⟨[("zone", "zid")], [("zid", [])]⟩
          "zone" "www.zone" "A" "1.2.3.4" 300 true).trace
        = [.zoneIDByName "zone", .listRecords "zid" ⟨toLowerStr "www.zone", toUpperStr "A"⟩,
           .create "zid" ⟨"", toLowerStr "www.zone", toUpperStr "A", "1.2.3.4", 300, false⟩] :=
  ⟨by decide, (cloudflare_create_ignores_proxy ⟨[("zone", "zid")], [("zid", [])]⟩
    "zone" "www.zone" "A" "1.2.3.4" 300 true).1 "zid" (by decide) (by decide)⟩

/-- C10: deleting with an empty name fails before any record-level vendor
call on Google, while on Cloudflare it disables the name filter and a
delete call is issued for every record in the zone. -/
theorem delete_empty_name_divergence
    (s : CloudDNS) (gb : GcpBackend) (cb : CFBackend) (zone : String) :
    (∀ mz, lookupA zone s.zoneToName = some mz →
        (CloudDNS.DeleteDNSRecord s gb zone "").ret = .error "no name specified to delete"
        ∧ (CloudDNS.DeleteDNSRecord s gb zone "").backend = gb
        ∧ (CloudDNS.DeleteDNSRecord s gb zone "").trace = [])
      ∧ (∀ zoneID, lookupA zone cb.zones = some zoneID →
        (CloudflareAPI.DeleteDNSRecord cb zone "").ret = .ok ()
        ∧ ∀ r ∈ cfZoneRecords cb zoneID,
            CFCall.delete zoneID r.id ∈ (CloudflareAPI.DeleteDNSRecord cb zone "").trace) := by
  refine ⟨?_, ?_⟩
  · intro mz hg
    refine ⟨?_, ?_, ?_⟩ <;> simp [CloudDNS.DeleteDNSRecord, hg]
  · intro zoneID hc
    have hall : cfList cb zoneID ⟨"", ""⟩ = cfZoneRecords cb zoneID := by
      simp [cfList]
    refine ⟨?_, ?_⟩
    · simp [CloudflareAPI.DeleteDNSRecord, hc]
    · intro r hr
      simp only [CloudflareAPI.DeleteDNSRecord, hc]
      simp only [List.mem_append, List.mem_map]
      exact Or.inr ⟨r, by rw [hall]; exact hr, rfl⟩

/-- C10 witness: a zone with two records; the empty-name delete issues a
delete call for each, while Google errors out. -/
theorem delete_empty_name_divergence_witness :
    lookupA "zone" (CloudDNS.mk "p" [("zone", "mz")]).zoneToName = some "mz"
      ∧ (CloudDNS.DeleteDNSRecord ⟨"p", [("zone", "mz")]⟩ ⟨[("mz", [])]⟩ "zone" "").ret
        = .error "no name specified to delete"
      ∧ CFCall.delete "zid" "i2" ∈ (CloudflareAPI.DeleteDNSRecord
          ⟨[("zone", "zid")], [("zid", [⟨"i1", "a.zone", "A", "1.1.1.1", 300, false⟩,
                                        ⟨"i2", "b.zone", "TXT", "x", 60, false⟩])]⟩
          "zone" "").trace :=
  ⟨by decide,
    ((delete_empty_name_divergence ⟨"p", [("zone", "mz")]⟩ ⟨[("mz", [])]⟩
        ⟨[("zone", "zid")], [("zid", [⟨"i1", "a.zone", "A", "1.1.1.1", 300, false⟩,
                                      ⟨"i2", "b.zone", "TXT", "x", 60, false⟩])]⟩ "zone").1
      "mz" (by decide)).1,
    ((delete_empty_name_divergence ⟨"p", [("zone", "mz")]⟩ ⟨[("mz", [])]⟩
        ⟨[("zone", "zid")], [("zid", [⟨"i1", "a.zone", "A", "1.1.1.1", 300, false⟩,
                                      ⟨"i2", "b.zone", "TXT", "x", 60, false⟩])]⟩ "zone").2
      "zid" (by decide)).2 ⟨"i2", "b.zone", "TXT", "x", 60, false⟩ (by decide)⟩

/-- C8: the Cloudflare upsert lists by lowercased name and uppercased type,
issues exactly one update call per listed record whose content differs (a
content match produces no call), and issues a create call exactly when
nothing was listed. -/
theorem cloudflare_upsert_logic
    (cb : CFBackend) (zone name rtype content : String) (ttl : Int) (proxy : Bool) :
    ∀ zoneID, lookupA zone cb.zones = some zoneID →
      (cfList cb zoneID ⟨toLowerStr name, toUpperStr rtype⟩ ≠ [] →
        (CloudflareAPI.CreateOrUpdateDNSRecord cb zone name rtype content ttl proxy).trace
          = [.zoneIDByName zone, .listRecords zoneID ⟨toLowerStr name, toUpperStr rtype⟩]
            ++ ((cfList cb zoneID ⟨toLowerStr name, toUpperStr rtype⟩).filter
                  (fun r => r.content != content)).map
                (fun r => CFCall.update zoneID r.id
                  ⟨"", toLowerStr name, toUpperStr rtype, content, ttl, proxy⟩))
      ∧ (cfList cb zoneID ⟨toLowerStr name, toUpperStr rtype⟩ = [] →
        (CloudflareAPI.CreateOrUpdateDNSRecord cb zone name rtype content ttl proxy).trace
          = [.zoneIDByName zone, .listRecords zoneID ⟨toLowerStr name, toUpperStr rtype⟩,
             .create zoneID ⟨"", toLowerStr name, toUpperStr rtype, content, ttl, false⟩]) := by
  intro zoneID hc
  constructor
  · intro hne
    have hne' : (cfList cb zoneID ⟨toLowerStr name, toUpperStr rtype⟩).isEmpty = false := by
      cases h : cfList cb zoneID ⟨toLowerStr name, toUpperStr rtype⟩ with
      | nil => exact absurd h hne
      | cons a l => rfl
    simp [CloudflareAPI.CreateOrUpdateDNSRecord, hc, hne']
  · intro he
    simp [CloudflareAPI.CreateOrUpdateDNSRecord, hc, he]

/-- C8 witness: one matching record with differing content is updated; a
second call after the update finds matching content and issues no call. -/
theorem cloudflare_upsert_logic_witness :
    cfList ⟨[("zone", "zid")], [("zid", [⟨"i1", "www.zone", "A", "1.1.1.1", 300, false⟩])]⟩
        "zid" ⟨toLowerStr "WWW.zone", toUpperStr "a"⟩
        = [⟨"i1", "www.zone", "A", "1.1.1.1", 300, false⟩]
      ∧ (CloudflareAPI.CreateOrUpdateDNSRecord
          ⟨[("zone", "zid")], [("zid", [⟨"i1", "www.zone", "A", "1.1.1.1", 300, false⟩])]⟩
          "zone" "WWW.zone" "a" "2.2.2.2" 300 false).trace
        = [.zoneIDByName "zone", .listRecords "zid" ⟨"www.zone", "A"⟩,
           .update "zid" "i1" ⟨"", "www.zone", "A", "2.2.2.2", 300, false⟩] :=
  ⟨by decide,
    by
      have h := (cloudflare_upsert_logic
        ⟨[("zone", "zid")], [("zid", [⟨"i1", "www.zone", "A", "1.1.1.1", 300, false⟩])]⟩
        "zone" "WWW.zone" "a" "2.2.2.2" 300 false "zid" (by decide)).1 (by decide)
      rw [h]; decide⟩

/-- Association-list lookup after an overwriting insert. -/
theorem lookupA_mapInsert (m : List (String × String)) (k k' v : String) :
    lookupA k (mapInsert m k' v) = if k' = k then some v else lookupA k m := by
  induction m with
  | nil =>
    by_cases h : k' = k
    · simp [lookupA, mapInsert, List.find?, h]
    · have hb : (k' == k) = false := by simp [h]
      simp [lookupA, mapInsert, List.find?, hb, h]
  | cons p m ih =>
    simp only [lookupA, mapInsert] at ih ⊢
    by_cases hp : p.1 = k'
    · rw [List.filter_cons_of_neg (by simp [hp])]
      rw [ih]
      by_cases h : k' = k
      · simp [h]
      · rw [if_neg h, if_neg h]
        rw [List.find?_cons_of_neg _ (by simp [hp]; exact fun he => h (hp ▸ he))]
    · rw [List.filter_cons_of_pos (by simp [hp])]
      by_cases hk : p.1 = k
      · have hkk : ¬k' = k := fun he => hp (by rw [hk, he])
        rw [if_neg hkk]
        rw [List.cons_append, List.find?_cons_of_pos _ (by simp [hk]),
          List.find?_cons_of_pos _ (by simp [hk])]
      · rw [List.cons_append, List.find?_cons_of_neg _ (by simp [hk]),
          List.find?_cons_of_neg _ (by simp [hk])]
        exact ih

/-- A key is present in the constructed zone cache exactly when some vendor
managed zone has that dot-trimmed DNS name. -/
theorem setManagedZones_mem_aux (mzones : List (String × String))
    (acc : List (String × String)) (k : String) :
    (lookupA k (mzones.foldl
        (fun acc mz => mapInsert acc (trimSuffixStr mz.1 ".") mz.2) acc)).isSome
      ↔ (lookupA k acc).isSome ∨ ∃ p ∈ mzones, trimSuffixStr p.1 "." = k := by
  induction mzones generalizing acc with
  | nil => simp
  | cons q l ih =>
    simp only [List.foldl_cons]
    rw [ih]
    rw [lookupA_mapInsert]
    by_cases h : trimSuffixStr q.1 "." = k
    · simp [h]
    · simp only [h, if_false, List.mem_cons]
      constructor
      · rintro (hs | ⟨p, hp, hk⟩)
        · exact Or.inl hs
        · exact Or.inr ⟨p, Or.inr hp, hk⟩
      · rintro (hs | ⟨p, hp | hp, hk⟩)
        · exact Or.inl hs
        · exact absurd (hp ▸ hk) h
        · exact Or.inr ⟨p, hp, hk⟩

/-- C5: the Google zone cache is populated once at construction — a zone
name is present exactly when the vendor listed a managed zone whose DNS
name, trailing dot stripped, equals it — and none of the three operations
changes the adapter state (in particular the cache). -/
theorem gcp_zone_cache_once_and_immutable :
    (∀ (project : String) (mzones : List (String × String)) (k : String),
        (lookupA k (NewGoogleCloudDNSProvider project mzones).zoneToName).isSome = true
          ↔ ∃ p ∈ mzones, trimSuffixStr p.1 "." = k)
      ∧ (∀ (s : CloudDNS) (b : GcpBackend) (zone name rtype content : String)
            (ttl : Int) (proxy : Bool),
          (CloudDNS.GetDNSRecords s b zone name).adapter = s
          ∧ (CloudDNS.CreateOrUpdateDNSRecord s b zone name rtype content ttl proxy).adapter = s
          ∧ (CloudDNS.DeleteDNSRecord s b zone name).adapter = s) := by
  constructor
  · intro project mzones k
    have h := setManagedZones_mem_aux mzones [] k
    simp only [NewGoogleCloudDNSProvider, setManagedZones]
    rw [h]
    simp [lookupA]
  · intro s b zone name rtype content ttl proxy
    refine ⟨?_, ?_, ?_⟩
    · unfold CloudDNS.GetDNSRecords
      cases lookupA zone s.zoneToName with
      | none => rfl
      | some mz => rfl
    · unfold CloudDNS.CreateOrUpdateDNSRecord CloudDNS.changeDNSRecords
      cases lookupA zone s.zoneToName with
      | none => rfl
      | some mz =>
        simp only []
        split <;> rfl
    · unfold CloudDNS.DeleteDNSRecord CloudDNS.changeDNSRecords
      cases lookupA zone s.zoneToName with
      | none => rfl
      | some mz =>
        simp only []
        split <;> rfl

/-- C1: on the Google adapter, at a state where the existing record set for
the name+type already carries exactly the requested content and ttl (the
code's own `noUpdateNeeded` flag is true), `CreateOrUpdateDNSRecord` still
issues a Patch call — a vendor mutation — so an identical repeat call is not
mutation-free; the OTC adapter likewise issues an Update call without ever
comparing content or ttl. -/
theorem exact_match_still_mutates :
    noUpdateNeededFlag ⟨"test.example.com.", "A", ["80.0.0.0"], 300⟩ "80.0.0.0" 300 = true
      ∧ (CloudDNS.CreateOrUpdateDNSRecord ⟨"p", [("example.com", "mz1")]⟩
            ⟨[("mz1", [⟨"test.example.com.", "A", ["80.0.0.0"], 300⟩])]⟩
            "example.com" "test.example.com" "A" "80.0.0.0" 300 false).trace
          = [.listRRSets "mz1", .patch "mz1" "test.example.com." "A"
               ⟨"test.example.com.", "A", ["80.0.0.0"], 300⟩]
      ∧ (CloudDNS.CreateOrUpdateDNSRecord ⟨"p", [("example.com", "mz1")]⟩
            ⟨[("mz1", [⟨"test.example.com.", "A", ["80.0.0.0"], 300⟩])]⟩
            "example.com" "test.example.com" "A" "80.0.0.0" 300 false).trace.any
            GcpCall.isMutation = true
      ∧ OTC.listRecordSets ⟨[⟨"z1", "zone."⟩],
            [("z1", [⟨"r1", "a.zone.", "A", ["\"80.0.0.0\""], 300⟩])]⟩ "z1" "a"
          = [⟨"r1", "a.zone.", "A", ["80.0.0.0"], 300⟩]
      ∧ (OTC.CreateOrUpdateDNSRecord ⟨[⟨"z1", "zone."⟩],
            [("z1", [⟨"r1", "a.zone.", "A", ["\"80.0.0.0\""], 300⟩])]⟩
            "zone." "a" "A" "80.0.0.0" 300 false).trace.any OtcCall.isMutation = true := by
  refine ⟨by decide, by decide, by decide, by decide, by decide⟩

/-- Replacing the entry for a key in a string-keyed association list makes
the key map to the new value. -/
theorem findAssoc_replace {α : Type} (l : List (String × α)) (k : String) (v : α) :
    List.find? (fun p => p.1 == k) (l.filter (fun p => p.1 != k) ++ [(k, v)]) = some (k, v) := by
  induction l with
  | nil => simp
  | cons p l ih =>
    by_cases hp : p.1 = k
    · rw [List.filter_cons_of_neg (by simp [hp])]
      exact ih
    · rw [List.filter_cons_of_pos (by simp [hp]), List.cons_append,
        List.find?_cons_of_neg _ (by simp [hp])]
      exact ih

theorem lookupRRSets_setRRSets (b : GcpBackend) (mz : String) (sets : List RRSet) :
    lookupRRSets (setRRSets b mz sets) mz = sets := by
  show ((List.find? (fun p => p.1 == mz)
      (b.rrsets.filter (fun p => p.1 != mz) ++ [(mz, sets)])).map (fun p => p.2)).getD [] = sets
  rw [findAssoc_replace]
  rfl

theorem cfZoneRecords_cfSetRecords (b : CFBackend) (z : String) (recs : List CFRecord) :
    cfZoneRecords (cfSetRecords b z recs) z = recs := by
  show ((List.find? (fun p => p.1 == z)
      (b.records.filter (fun p => p.1 != z) ++ [(z, recs)])).map (fun p => p.2)).getD [] = recs
  rw [findAssoc_replace]
  rfl

theorem otcZoneSets_otcSetSets (b : OtcBackend) (z : String) (sets : List OtcRecordSet) :
    otcZoneSets (otcSetSets b z sets) z = sets := by
  show ((List.find? (fun p => p.1 == z)
      (b.recordSets.filter (fun p => p.1 != z) ++ [(z, sets)])).map (fun p => p.2)).getD [] = sets
  rw [findAssoc_replace]
  rfl

theorem isPrefixOf_self_append {α : Type} [BEq α] [LawfulBEq α] (l t : List α) :
    l.isPrefixOf (l ++ t) = true := by
  induction l with
  | nil => simp
  | cons a l ih => simp [List.cons_append, List.isPrefixOf_cons₂, ih]

theorem hasSuffixStr_append_dot (s : String) : hasSuffixStr (s ++ ".") "." = true := by
  have h : (s ++ ".").data = s.data ++ ['.'] := by simp
  simp only [hasSuffixStr, h, List.reverse_append]
  exact isPrefixOf_self_append _ _

theorem trimSuffixStr_append_dot (s : String) : trimSuffixStr (s ++ ".") "." = s := by
  have h : (s ++ ".").data = s.data ++ ['.'] := by simp
  simp only [trimSuffixStr, hasSuffixStr_append_dot, if_true, h]
  have hl : (s.data ++ ['.']).length - (".").data.length = s.data.length := by
    simp
  rw [hl, List.take_left]

theorem containsStr_append_right (n rest : String) : containsStr (n ++ rest) n = true := by
  simp only [containsStr, List.any_eq_true]
  refine ⟨0, ?_, ?_⟩
  · simp
  · simp [isPrefixOf_self_append]

theorem string_eta (s : String) : String.mk s.data = s := rfl

theorem char_beq_false_symm {a b : Char} (h : (a == b) = false) : (b == a) = false := by
  cases hb : b == a with
  | false => rfl
  | true =>
    have hba : b = a := eq_of_beq hb
    subst hba
    rw [beq_self_eq_true] at h
    exact Bool.noConfusion h

theorem dropQ_cons_quote (l : List Char) : dropQ ('"' :: l) = dropQ l := by
  simp [dropQ, List.dropWhile_cons]

theorem dropQ_of_not_quote_head {l : List Char} (h : ['"'].isPrefixOf l = false) :
    dropQ l = l := by
  cases l with
  | nil => rfl
  | cons y u =>
    rw [List.isPrefixOf_cons₂] at h
    simp only [List.isPrefixOf_nil_left, Bool.and_true] at h
    have hy : (y == '"') = false := char_beq_false_symm h
    simp [dropQ, List.dropWhile_cons, hy]

/-- Reading back a value the OTC adapter wrapped: `strings.Trim` with the
quote cutset undoes the wrapping whenever the original content neither
starts nor ends with a quote. -/
theorem trimQuotes_wrap (c : String) (hp : hasPrefixStr c "\"" = false)
    (hs : hasSuffixStr c "\"" = false) :
    trimQuotes ("\"" ++ c ++ "\"") = c := by
  have hq : ("\"" : String).data = ['"'] := rfl
  have hp' : (['"'].isPrefixOf c.data) = false := by
    have h := hp
    unfold hasPrefixStr at h
    rw [hq] at h
    exact h
  have hs' : (['"'].isPrefixOf c.data.reverse) = false := by
    have h := hs
    unfold hasSuffixStr at h
    rw [hq] at h
    exact h
  have hdata : ("\"" ++ c ++ "\"").data = '"' :: (c.data ++ ['"']) := by
    simp [hq]
  cases hd : c.data with
  | nil =>
    have hc : c = "" := by
      rw [← string_eta c, hd]
    rw [hc]
    decide
  | cons x t =>
    rw [hd] at hp' hs'
    have hmid : dropQ ((x :: t) ++ ['"']) = (x :: t) ++ ['"'] := by
      apply dropQ_of_not_quote_head
      rw [List.cons_append, List.isPrefixOf_cons₂]
      rw [List.isPrefixOf_cons₂] at hp'
      simp only [List.isPrefixOf_nil_left, Bool.and_true] at hp' ⊢
      exact hp'
    unfold trimQuotes
    rw [hdata, hd, dropQ_cons_quote, hmid]
    rw [List.reverse_append]
    have hqr : (['"'] : List Char).reverse = ['"'] := rfl
    rw [hqr, List.singleton_append, dropQ_cons_quote]
    have hrev : dropQ (x :: t).reverse = (x :: t).reverse :=
      dropQ_of_not_quote_head hs'
    rw [hrev, List.reverse_reverse, ← hd, string_eta]

/-- The records of a successful Google listing (empty list on error). -/
def gcpRecords (r : GcpResult (List Record)) : List Record :=
  match r.ret with
  | .ok l => l
  | .error _ => []

/-- The records of a successful Cloudflare listing (empty list on error). -/
def cfRecords (r : CFResult (List Record)) : List Record :=
  match r.ret with
  | .ok l => l
  | .error _ => []

/-- The records of a successful OTC listing (empty list on error). -/
def otcRecords (r : OtcResult (List Record)) : List Record :=
  match r.ret with
  | .ok l => l
  | .error _ => []

theorem cfSetRecords_zones (b : CFBackend) (z : String) (recs : List CFRecord) :
    (cfSetRecords b z recs).zones = b.zones := rfl

theorem otcSetSets_zones (b : OtcBackend) (z : String) (sets : List OtcRecordSet) :
    (otcSetSets b z sets).zones = b.zones := rfl

/-- Google round trip: for a known zone and a name without a trailing dot,
a successful upsert followed by a get returns the written record. -/
theorem gcp_upsert_roundtrip_aux (s : CloudDNS) (b : GcpBackend)
    (zone name rtype content : String) (ttl : Int) (proxy : Bool) (mz : String)
    (hz : lookupA zone s.zoneToName = some mz)
    (hn : hasSuffixStr name "." = false) :
    (CloudDNS.CreateOrUpdateDNSRecord s b zone name rtype content ttl proxy).ret = .ok ()
    ∧ Record.mk rtype name [content] ttl ∈ gcpRecords (CloudDNS.GetDNSRecords s
        (CloudDNS.CreateOrUpdateDNSRecord s b zone name rtype content ttl proxy).backend
        zone name) := by
  have hn' : (if hasSuffixStr name "." then name else name ++ ".") = name ++ "." := by
    rw [hn]
    rfl
  simp only [CloudDNS.CreateOrUpdateDNSRecord, CloudDNS.changeDNSRecords, hn', hz]
  cases hf : List.find? (fun r => (name ++ ".") == r.name && rtype == r.rtype)
      (lookupRRSets b mz) with
  | some ex =>
    have hex := List.find?_some hf
    have hmem := List.mem_of_find?_eq_some hf
    simp only [Bool.and_eq_true, beq_iff_eq] at hex
    obtain ⟨hname, htype⟩ := hex
    refine ⟨rfl, ?_⟩
    simp only [CloudDNS.GetDNSRecords, hz, gcpRecords]
    rw [lookupRRSets_setRRSets]
    apply List.mem_filterMap.mpr
    refine ⟨⟨ex.name, ex.rtype, [content], ttl⟩, ?_, ?_⟩
    · apply List.mem_map.mpr
      refine ⟨ex, hmem, ?_⟩
      have hcond : (ex.name == name ++ "." && ex.rtype == rtype) = true := by
        simp [← hname, ← htype]
      rw [hcond]
      simp
    · simp only [← hname, trimSuffixStr_append_dot]
      simp [← htype]
  | none =>
    refine ⟨rfl, ?_⟩
    simp only [CloudDNS.GetDNSRecords, hz, gcpRecords]
    rw [lookupRRSets_setRRSets]
    apply List.mem_filterMap.mpr
    refine ⟨⟨name ++ ".", rtype, [content], ttl⟩, ?_, ?_⟩
    · exact List.mem_append_right _ (List.mem_singleton.mpr rfl)
    · simp [trimSuffixStr_append_dot]

/-- Cloudflare round trip on the create path: with a lowercase name and
uppercase type and no pre-existing match, the created record is returned by
a subsequent get. -/
theorem cf_create_roundtrip_aux (cb : CFBackend) (zone name rtype content : String)
    (ttl : Int) (proxy : Bool) (zoneID : String)
    (hz : lookupA zone cb.zones = some zoneID)
    (hlow : toLowerStr name = name) (hup : toUpperStr rtype = rtype)
    (hL : cfList cb zoneID ⟨toLowerStr name, toUpperStr rtype⟩ = []) :
    (CloudflareAPI.CreateOrUpdateDNSRecord cb zone name rtype content ttl proxy).ret = .ok ()
    ∧ Record.mk rtype name [content] ttl ∈ cfRecords (CloudflareAPI.GetDNSRecords
        (CloudflareAPI.CreateOrUpdateDNSRecord cb zone name rtype content ttl proxy).backend
        zone name) := by
  have hL' : (cfList cb zoneID ⟨toLowerStr name, toUpperStr rtype⟩).isEmpty = true := by
    rw [hL]
    rfl
  simp only [CloudflareAPI.CreateOrUpdateDNSRecord, hz, hL', if_true]
  refine ⟨by trivial, ?_⟩
  simp only [CloudflareAPI.GetDNSRecords, cfCreate, cfSetRecords_zones, hz, cfRecords]
  apply List.mem_map.mpr
  refine ⟨⟨"", toLowerStr name, toUpperStr rtype, content, ttl, false⟩, ?_, ?_⟩
  · simp only [cfList, cfZoneRecords_cfSetRecords]
    apply List.mem_filter.mpr
    refine ⟨List.mem_append_right _ (List.mem_singleton.mpr rfl), ?_⟩
    simp only [hlow, hup]
    by_cases hne : name = ""
    · simp [hne]
    · have : (name == "") = false := by simp [hne]
      simp [this]
  · simp [hlow, hup]

/-- OTC round trip on the create path: with a known zone, no pre-existing
match and content carrying no quote at either end, the created record set is
returned (content unwrapped) by a subsequent get. -/
theorem otc_create_roundtrip_aux (ob : OtcBackend) (zone name rtype content : String)
    (ttl : Int) (proxy : Bool) (z : OtcZone)
    (hz : OTC.findZoneByName ob zone = some z)
    (hL : OTC.listRecordSets ob z.id name = [])
    (hp : hasPrefixStr content "\"" = false)
    (hs : hasSuffixStr content "\"" = false) :
    (OTC.CreateOrUpdateDNSRecord ob zone name rtype content ttl proxy).ret = .ok ()
    ∧ Record.mk rtype name [content] ttl ∈ otcRecords (OTC.GetDNSRecords
        (OTC.CreateOrUpdateDNSRecord ob zone name rtype content ttl proxy).backend
        zone name) := by
  have hwrap : otcWrap content = "\"" ++ content ++ "\"" := by
    simp [otcWrap, hp, hs]
  have hzset : ∀ (sets : List OtcRecordSet),
      OTC.findZoneByName (otcSetSets ob z.id sets) zone = OTC.findZoneByName ob zone :=
    fun _ => rfl
  simp only [OTC.CreateOrUpdateDNSRecord, OTC.createDNSRecord, hz, hL]
  refine ⟨by trivial, ?_⟩
  simp only [OTC.GetDNSRecords, hzset, hz, otcRecords, OTC.listRecordSets,
    otcZoneSets_otcSetSets]
  apply List.mem_filterMap.mpr
  refine ⟨⟨"created-id", name ++ "." ++ zone, rtype,
      [trimQuotes (otcWrap content)], ttl⟩, ?_, ?_⟩
  · apply List.mem_map.mpr
    refine ⟨⟨"created-id", name ++ "." ++ zone, rtype, [otcWrap content], ttl⟩, ?_, rfl⟩
    by_cases hne : name = ""
    · simp [hne]
    · have hne' : (name == "") = false := by simp [hne]
      simp only [hne', if_false]
      apply List.mem_filter.mpr
      refine ⟨List.mem_append_right _ (List.mem_singleton.mpr rfl), ?_⟩
      rw [String.append_assoc]
      exact containsStr_append_right name ("." ++ zone)
  · have hcontent : trimQuotes (otcWrap content) = content := by
      rw [hwrap]
      exact trimQuotes_wrap content hp hs
    by_cases hne : name = ""
    · simp [hne, hcontent]
    · have hne' : (name == "") = false := by simp [hne]
      simp [hne', hcontent]

theorem quote_not_prefixOf_dropQ (l : List Char) : ['"'].isPrefixOf (dropQ l) = false := by
  induction l with
  | nil => rfl
  | cons a u ih =>
    by_cases h : (a == '"') = true
    · simpa [dropQ, List.dropWhile_cons, h] using ih
    · have h' : (a == '"') = false := by
        cases hh : a == '"' with
        | false => rfl
        | true => exact absurd hh h
      simp only [dropQ, List.dropWhile_cons, h', Bool.false_eq_true, if_false]
      rw [List.isPrefixOf_cons₂]
      simp [char_beq_false_symm h']

theorem quote_not_prefixOf_reverse_dropQ (l : List Char)
    (h : ['"'].isPrefixOf l.reverse = false) :
    ['"'].isPrefixOf (dropQ l).reverse = false := by
  have hrev : l.reverse
      = (dropQ l).reverse ++ (l.takeWhile (fun c => c == '"')).reverse := by
    unfold dropQ
    calc l.reverse
        = (l.takeWhile (fun c => c == '"') ++ l.dropWhile (fun c => c == '"')).reverse := by
          rw [List.takeWhile_append_dropWhile]
    _ = (l.dropWhile (fun c => c == '"')).reverse
          ++ (l.takeWhile (fun c => c == '"')).reverse :=
          List.reverse_append _ _
  cases hc : (dropQ l).reverse with
  | nil => rfl
  | cons y u =>
    rw [hrev, hc, List.cons_append] at h
    rw [List.isPrefixOf_cons₂] at h ⊢
    simp only [List.isPrefixOf_nil_left, Bool.and_true] at h ⊢
    exact h

/-- `strings.Trim(s, "\"")` leaves no leading quotation mark. -/
theorem trimQuotes_no_lead (s : String) : hasPrefixStr (trimQuotes s) "\"" = false := by
  show ['"'].isPrefixOf ((dropQ (dropQ s.data).reverse).reverse) = false
  apply quote_not_prefixOf_reverse_dropQ
  rw [List.reverse_reverse]
  exact quote_not_prefixOf_dropQ s.data

/-- `strings.Trim(s, "\"")` leaves no trailing quotation mark. -/
theorem trimQuotes_no_trail (s : String) : hasSuffixStr (trimQuotes s) "\"" = false := by
  show ['"'].isPrefixOf ((dropQ (dropQ s.data).reverse).reverse).reverse = false
  rw [List.reverse_reverse]
  exact quote_not_prefixOf_dropQ _

/-- C6 counterexample: on the OTC adapter, a successful upsert that takes
the update path against a record set of a different type (OTC matches
existing record sets by name only) leaves that type in place, so the
following get returns a record whose type is "TXT", not the written "A". -/
theorem upsert_get_roundtrip_counterexample :
    (OTC.CreateOrUpdateDNSRecord ⟨[⟨"z1", "example.com."⟩],
        [("z1", [⟨"r1", "test.example.com.", "TXT", ["\"old\""], 60⟩])]⟩
        "example.com." "test" "A" "80.0.0.0" 300 false).ret = .ok ()
      ∧ (OTC.GetDNSRecords (OTC.CreateOrUpdateDNSRecord ⟨[⟨"z1", "example.com."⟩],
            [("z1", [⟨"r1", "test.example.com.", "TXT", ["\"old\""], 60⟩])]⟩
            "example.com." "test" "A" "80.0.0.0" 300 false).backend
          "example.com." "test").ret
        = .ok [⟨"TXT", "test", ["80.0.0.0"], 300⟩]
      ∧ ("TXT" : String) ≠ "A" := by
  refine ⟨by decide, by decide, by decide⟩

/-- C6 (amended): a successful upsert followed by a get with the same name
returns a record carrying the written type, content and ttl, provided the
arguments are in the adapter's canonical form: for Google the zone is cached
and the name has no trailing dot; for Cloudflare the zone exists, the name
is lowercase, the type uppercase, and no record matches name+type (the
create path; content-matching records on the update path keep their old
ttl); for OTC the zone exists, no record set matches the name (the create
path; the update path keeps the matched set's type), and the content has no
quote at either end. -/
theorem upsert_get_roundtrip_amended :
    (∀ (s : CloudDNS) (b : GcpBackend) (zone name rtype content : String) (ttl : Int)
        (proxy : Bool) (mz : String),
        lookupA zone s.zoneToName = some mz →
        hasSuffixStr name "." = false →
        (CloudDNS.CreateOrUpdateDNSRecord s b zone name rtype content ttl proxy).ret = .ok ()
        ∧ Record.mk rtype name [content] ttl ∈ gcpRecords (CloudDNS.GetDNSRecords s
            (CloudDNS.CreateOrUpdateDNSRecord s b zone name rtype content ttl proxy).backend
            zone name))
      ∧ (∀ (cb : CFBackend) (zone name rtype content : String) (ttl : Int) (proxy : Bool)
          (zoneID : String),
          lookupA zone cb.zones = some zoneID →
          toLowerStr name = name →
          toUpperStr rtype = rtype →
          cfList cb zoneID ⟨toLowerStr name, toUpperStr rtype⟩ = [] →
          (CloudflareAPI.CreateOrUpdateDNSRecord cb zone name rtype content ttl proxy).ret
            = .ok ()
          ∧ Record.mk rtype name [content] ttl ∈ cfRecords (CloudflareAPI.GetDNSRecords
              (CloudflareAPI.CreateOrUpdateDNSRecord cb zone name rtype content ttl proxy).backend
              zone name))
      ∧ (∀ (ob : OtcBackend) (zone name rtype content : String) (ttl : Int) (proxy : Bool)
          (z : OtcZone),
          OTC.findZoneByName ob zone = some z →
          OTC.listRecordSets ob z.id name = [] →
          hasPrefixStr content "\"" = false →
          hasSuffixStr content "\"" = false →
          (OTC.CreateOrUpdateDNSRecord ob zone name rtype content ttl proxy).ret = .ok ()
          ∧ Record.mk rtype name [content] ttl ∈ otcRecords (OTC.GetDNSRecords
              (OTC.CreateOrUpdateDNSRecord ob zone name rtype content ttl proxy).backend
              zone name)) :=
  ⟨fun s b zone name rtype content ttl proxy mz hz hn =>
      gcp_upsert_roundtrip_aux s b zone name rtype content ttl proxy mz hz hn,
    fun cb zone name rtype content ttl proxy zoneID hz hlow hup hL =>
      cf_create_roundtrip_aux cb zone name rtype content ttl proxy zoneID hz hlow hup hL,
    fun ob zone name rtype content ttl proxy z hz hL hp hs =>
      otc_create_roundtrip_aux ob zone name rtype content ttl proxy z hz hL hp hs⟩

/-- C6 witness: the three adapters each round-trip a concrete record. -/
theorem upsert_get_roundtrip_amended_witness :
    Record.mk "A" "www.zone" ["1.2.3.4"] 300 ∈ gcpRecords (CloudDNS.GetDNSRecords
        ⟨"p", [("zone", "mz")]⟩
        (CloudDNS.CreateOrUpdateDNSRecord ⟨"p", [("zone", "mz")]⟩ ⟨[]⟩
          "zone" "www.zone" "A" "1.2.3.4" 300 false).backend "zone" "www.zone")
      ∧ Record.mk "A" "www.zone" ["1.2.3.4"] 300 ∈ cfRecords (CloudflareAPI.GetDNSRecords
          (CloudflareAPI.CreateOrUpdateDNSRecord ⟨[("zone", "zid")], []⟩
            "zone" "www.zone" "A" "1.2.3.4" 300 false).backend "zone" "www.zone")
      ∧ Record.mk "A" "a" ["1.2.3.4"] 300 ∈ otcRecords (OTC.GetDNSRecords
          (OTC.CreateOrUpdateDNSRecord ⟨[⟨"z1", "zone."⟩], []⟩
            "zone." "a" "A" "1.2.3.4" 300 false).backend "zone." "a") :=
  ⟨(upsert_get_roundtrip_amended.1 ⟨"p", [("zone", "mz")]⟩ ⟨[]⟩
      "zone" "www.zone" "A" "1.2.3.4" 300 false "mz" (by decide) (by decide)).2,
    (upsert_get_roundtrip_amended.2.1 ⟨[("zone", "zid")], []⟩
      "zone" "www.zone" "A" "1.2.3.4" 300 false "zid"
      (by decide) (by decide) (by decide) (by decide)).2,
    (upsert_get_roundtrip_amended.2.2 ⟨[⟨"z1", "zone."⟩], []⟩
      "zone." "a" "A" "1.2.3.4" 300 false ⟨"z1", "zone."⟩
      (by decide) (by decide) (by decide) (by decide)).2⟩

/-- C7 counterexample: content ending (but not starting) with a quotation
mark is sent verbatim by the OTC create path — neither wrapped in quotes nor
already quoted. -/
theorem otc_quote_wrapping_counterexample :
    (OTC.CreateOrUpdateDNSRecord ⟨[⟨"z1", "example.com."⟩], [("z1", [])]⟩
        "example.com." "t" "TXT" "a\"" 300 false).trace
      = [.listZones "example.com.", .listRecordSets "z1" "t",
         .create "z1" ⟨"created-id", "t.example.com.", "TXT", ["a\""], 300⟩]
      ∧ ("a\"" : String) ≠ "\"" ++ "a\"" ++ "\""
      ∧ ¬(hasPrefixStr "a\"" "\"" = true ∧ hasSuffixStr "a\"" "\"" = true) := by
  refine ⟨by decide, by decide, by decide⟩

/-- C7 (amended): the OTC adapter sends `otcWrap content` on both the create
and the update path; `otcWrap` wraps in quotation marks exactly when the
content neither starts nor ends with a quote (otherwise it passes the
content through verbatim), and every value returned by the record-set
listing has all surrounding quotation marks stripped (it neither starts nor
ends with a quote). -/
theorem otc_quote_conventions :
    (∀ (ob : OtcBackend) (zone name rtype content : String) (ttl : Int) (proxy : Bool)
        (z : OtcZone),
        OTC.findZoneByName ob zone = some z →
        OTC.listRecordSets ob z.id name = [] →
        OtcCall.create z.id ⟨"created-id", name ++ "." ++ zone, rtype, [otcWrap content], ttl⟩
          ∈ (OTC.CreateOrUpdateDNSRecord ob zone name rtype content ttl proxy).trace)
      ∧ (∀ (ob : OtcBackend) (zone name rtype content : String) (ttl : Int) (proxy : Bool)
          (z : OtcZone) (r : OtcRecordSet),
          OTC.findZoneByName ob zone = some z →
          OTC.listRecordSets ob z.id name = [r] →
          OtcCall.update z.id r.id ttl [otcWrap content]
            ∈ (OTC.CreateOrUpdateDNSRecord ob zone name rtype content ttl proxy).trace)
      ∧ (∀ content : String,
          hasPrefixStr content "\"" = false → hasSuffixStr content "\"" = false →
          otcWrap content = "\"" ++ content ++ "\"")
      ∧ (∀ content : String,
          hasPrefixStr content "\"" = true ∨ hasSuffixStr content "\"" = true →
          otcWrap content = content)
      ∧ (∀ (ob : OtcBackend) (zoneID name : String) (rs : OtcRecordSet) (v : String),
          rs ∈ OTC.listRecordSets ob zoneID name → v ∈ rs.records →
          hasPrefixStr v "\"" = false ∧ hasSuffixStr v "\"" = false) := by
  refine ⟨?_, ?_, ?_, ?_, ?_⟩
  · intro ob zone name rtype content ttl proxy z hz hL
    simp [OTC.CreateOrUpdateDNSRecord, OTC.createDNSRecord, hz, hL]
  · intro ob zone name rtype content ttl proxy z r hz hL
    simp [OTC.CreateOrUpdateDNSRecord, hz, hL]
  · intro content hp hs
    simp [otcWrap, hp, hs]
  · intro content h
    rcases h with h | h <;> simp [otcWrap, h]
  · intro ob zoneID name rs v hrs hv
    simp only [OTC.listRecordSets, List.mem_map] at hrs
    obtain ⟨rs0, hrs0, hmk⟩ := hrs
    subst hmk
    simp only [List.mem_map] at hv
    obtain ⟨u, hu, huv⟩ := hv
    subst huv
    exact ⟨trimQuotes_no_lead u, trimQuotes_no_trail u⟩

/-- C7 witness: concrete create and update calls with wrapped content, and a
concrete listing whose values carry no surrounding quotes. -/
theorem otc_quote_conventions_witness :
    OtcCall.create "z1" ⟨"created-id", "t" ++ "." ++ "zone.", "A", [otcWrap "1.2.3.4"], 300⟩
        ∈ (OTC.CreateOrUpdateDNSRecord ⟨[⟨"z1", "zone."⟩], [("z1", [])]⟩
            "zone." "t" "A" "1.2.3.4" 300 false).trace
      ∧ OtcCall.update "z1" "r1" 300 [otcWrap "x"]
        ∈ (OTC.CreateOrUpdateDNSRecord
            ⟨[⟨"z1", "zone."⟩], [("z1", [⟨"r1", "t.zone.", "A", ["\"y\""], 60⟩])]⟩
            "zone." "t" "A" "x" 300 false).trace
      ∧ otcWrap "x" = "\"" ++ "x" ++ "\""
      ∧ otcWrap "\"q\"" = "\"q\""
      ∧ (hasPrefixStr "y" "\"" = false ∧ hasSuffixStr "y" "\"" = false) :=
  ⟨otc_quote_conventions.1 ⟨[⟨"z1", "zone."⟩], [("z1", [])]⟩
      "zone." "t" "A" "1.2.3.4" 300 false ⟨"z1", "zone."⟩ (by decide) (by decide),
    otc_quote_conventions.2.1
      ⟨[⟨"z1", "zone."⟩], [("z1", [⟨"r1", "t.zone.", "A", ["\"y\""], 60⟩])]⟩
      "zone." "t" "A" "x" 300 false ⟨"z1", "zone."⟩ ⟨"r1", "t.zone.", "A", ["y"], 60⟩
      (by decide) (by decide),
    otc_quote_conventions.2.2.1 "x" (by decide) (by decide),
    otc_quote_conventions.2.2.2.1 "\"q\"" (Or.inl (by decide)),
    otc_quote_conventions.2.2.2.2
      ⟨[⟨"z1", "zone."⟩], [("z1", [⟨"r1", "t.zone.", "A", ["\"y\""], 60⟩])]⟩
      "z1" "t" ⟨"r1", "t.zone.", "A", ["y"], 60⟩ "y" (by decide) (by decide)⟩

/-- C5 witness: a concrete construction (trailing dot stripped) and a
concrete operation leaving the adapter state unchanged. -/
theorem gcp_zone_cache_once_and_immutable_witness :
    ((lookupA "zone" (NewGoogleCloudDNSProvider "p" [("zone.", "mz")]).zoneToName).isSome = true
        ↔ ∃ p ∈ [("zone.", "mz")], trimSuffixStr p.1 "." = "zone")
      ∧ (CloudDNS.GetDNSRecords ⟨"p", [("zone", "mz")]⟩ ⟨[]⟩ "zone" "n").adapter
        = ⟨"p", [("zone", "mz")]⟩ :=
  ⟨gcp_zone_cache_once_and_immutable.1 "p" [("zone.", "mz")] "zone",
    (gcp_zone_cache_once_and_immutable.2 ⟨"p", [("zone", "mz")]⟩ ⟨[]⟩
      "zone" "n" "A" "c" 300 false).1⟩

end DnsProviders
